import Mathlib

/-!
Shallow embedding of the `ml_by_hand` notebooks
(`regularized_regression/ridge_regression.ipynb`,
`regularized_regression/lasso.ipynb`,
`maximum_likelihood_estimation/maximum_likelihood_estimation.ipynb`)
over exact rational arithmetic.

Matrices are `Matrix (Fin n) (Fin p) ℚ`, vectors are `Fin n → ℚ`.
The numpy global random-number generator is modelled as an explicit
state (a stream of draws plus a cursor) threaded through every call
that touches it.  The external scipy optimizer is a parameter: any
function from (objective, initial guess) to a result record carrying
the fields the notebooks read (`x`, and the `success` flag they do
not read).
-/

open Matrix

/-- The exceptions a fit can surface.  `singularMatrix` models numpy's
`LinAlgError` raised by `np.linalg.inv` on a singular matrix;
`invalidArgument` models a `ValueError`-style rejection of bad
arguments (no explicit validation in the repository raises it; the
only occurrence is numpy's own `ValueError` from `np.vectorize` on
size-0 input, see `factorial`). -/
inductive FitError where
  | invalidArgument
  | singularMatrix
deriving DecidableEq

/-- State of the numpy global random-number generator: an unbounded
stream of draws and a cursor into it.  `np.random.rand(p)` reads the
next `p` draws and advances the cursor. -/
structure NpRandomState where
  seq : ℕ → ℚ
  pos : ℕ

/-- `np.random.rand(p)`: return the next `p` draws of the global
generator and the advanced generator state. -/
def npRandomRand (p : ℕ) (s : NpRandomState) : (Fin p → ℚ) × NpRandomState :=
  (fun i => s.seq (s.pos + i.val), ⟨s.seq, s.pos + p⟩)

/-- Result record of the external `scipy.optimize.minimize` call, with
the fields the notebooks touch: the solution array `x` and the
convergence flag `success`, plus the diagnostics (`fun`, `nit`) the
spec's error taxonomy mentions. -/
structure OptimizeResult (p : ℕ) where
  x : Fin p → ℚ
  success : Bool
  fun_val : ℚ
  nit : ℕ
deriving DecidableEq

/-- The external unconstrained minimizer used by the lasso notebook:
any map from (objective, initial guess) to a result record. -/
def Optimizer (p : ℕ) : Type :=
  ((Fin p → ℚ) → ℚ) → (Fin p → ℚ) → OptimizeResult p

/-- Scalar variant of the optimizer result, as used by the MLE
notebook (`minimize` on a one-dimensional parameter). -/
structure ScalarOptResult where
  x : ℚ
  success : Bool
  fun_val : ℚ
  nit : ℕ
deriving DecidableEq

/-- The external scalar minimizer used by the MLE notebook. -/
def ScalarOptimizer : Type :=
  (ℚ → ℚ) → ℚ → ScalarOptResult

/-- `RidgeRegression.fit` from `ridge_regression.ipynb`, cell 14:

    C = l * eye + X.T.dot(X)
    self.w = np.linalg.inv(C).dot(X.T.dot(y))

`np.linalg.inv` raises `LinAlgError` exactly on a singular matrix;
otherwise the inverse is `det⁻¹ • adjugate`.  No check on `l` is
performed. -/
def RidgeRegression.fit {n p : ℕ} (X : Matrix (Fin n) (Fin p) ℚ) (y : Fin n → ℚ)
    (l : ℚ) : Except FitError (Fin p → ℚ) :=
  if (l • (1 : Matrix (Fin p) (Fin p) ℚ) + Xᵀ * X).det = 0 then
    .error .singularMatrix
  else
    .ok (((l • (1 : Matrix (Fin p) (Fin p) ℚ) + Xᵀ * X).det⁻¹
          • (l • (1 : Matrix (Fin p) (Fin p) ℚ) + Xᵀ * X).adjugate) *ᵥ (Xᵀ *ᵥ y))

/-- The ridge fit with the numpy global generator state threaded
through: the method body reads no randomness, so the state passes
through unchanged and the returned coefficients are computed from
`(X, y, l)` alone. -/
def RidgeRegression.fitRng {n p : ℕ} (s : NpRandomState) (X : Matrix (Fin n) (Fin p) ℚ)
    (y : Fin n → ℚ) (l : ℚ) : Except FitError (Fin p → ℚ) × NpRandomState :=
  (RidgeRegression.fit X y l, s)

/-- Instance state of a `RidgeRegression()` object: the `self.w`
field, absent (`none`) before the first `fit` call. -/
structure RidgeRegressionState (p : ℕ) where
  w : Option (Fin p → ℚ)
deriving DecidableEq

/-- `RidgeRegression.fit` as a method on the instance state: it
assigns `self.w` unconditionally, discarding whatever was stored. -/
def RidgeRegression.fitSelf {n p : ℕ} (self : RidgeRegressionState p)
    (X : Matrix (Fin n) (Fin p) ℚ) (y : Fin n → ℚ) (l : ℚ) :
    Except FitError (RidgeRegressionState p) :=
  (RidgeRegression.fit X y l).map fun wNew => ⟨some wNew⟩

/-- `RidgeRegression.predict`: `return X.dot(self.w)`.  Reading
`self.w` before any fit is a Python `AttributeError`, modelled by
`none`. -/
def RidgeRegression.predictSelf {n p : ℕ} (self : RidgeRegressionState p)
    (X : Matrix (Fin n) (Fin p) ℚ) : Option (Fin n → ℚ) :=
  self.w.map fun w => X *ᵥ w

/-- The objective `func` passed to `minimize` in `lasso.ipynb`:

    func = lambda w,y,x,lam: ((y - x.dot(w))**2).sum() + lam*w.sum()

Note the penalty is `lam` times the plain sum of the coefficients, not
of their absolute values. -/
def LassoRegression.func {n p : ℕ} (X : Matrix (Fin n) (Fin p) ℚ) (y : Fin n → ℚ)
    (lam : ℚ) (w : Fin p → ℚ) : ℚ :=
  (∑ i, (y i - (X *ᵥ w) i) ^ 2) + lam * (∑ j, w j)

/-- The objective the spec prescribes for the lasso, with the standard
L1 penalty `λ·‖w‖₁`.  Stated from the spec's words, for comparison
with `LassoRegression.func` above. -/
def lassoSpecObjective {n p : ℕ} (X : Matrix (Fin n) (Fin p) ℚ) (y : Fin n → ℚ)
    (lam : ℚ) (w : Fin p → ℚ) : ℚ :=
  (∑ i, (y i - (X *ᵥ w) i) ^ 2) + lam * (∑ j, |w j|)

/-- `LassoRegression.fit` from `lasso.ipynb`:

    w0 = np.random.rand(p)
    self.w = minimize(func, w0, args=(y,X,lam))["x"]

The initial guess is drawn from the global generator; the optimizer's
result dictionary is indexed at `"x"` only — the `success` flag is
never consulted — and no check on `lam` is performed. -/
def LassoRegression.fit {n p : ℕ} (opt : Optimizer p) (s : NpRandomState)
    (X : Matrix (Fin n) (Fin p) ℚ) (y : Fin n → ℚ) (lam : ℚ) :
    (Fin p → ℚ) × NpRandomState :=
  let res := npRandomRand p s
  ((opt (LassoRegression.func X y lam) res.1).x, res.2)

/-- `factorial = np.vectorize(f)` from the MLE notebook, where
`f(x) = np.math.factorial(x)`.  `np.vectorize` without `otypes` probes
the first element of its input to choose an output dtype, so it raises
a `ValueError` on size-0 input; on nonempty input it maps the
factorial elementwise. -/
def factorial (x : List ℕ) : Except FitError (List ℕ) :=
  match x with
  | [] => .error .invalidArgument
  | _ => .ok (x.map Nat.factorial)

/-- `log_likelihood` from `maximum_likelihood_estimation.ipynb`:

    lambda theta,x: len(x)*theta - np.sum(x)*np.log(theta)
                    + np.sum(np.log(factorial(x)))

The real logarithm is kept abstract as a rational-valued parameter
`log`; the formula applies it directly to `theta`, with no guard or
clamp for `theta ≤ 0`.  The `factorial(x)` term goes through the
`np.vectorize` wrapper, which raises on size-0 input, so the whole
evaluation raises on empty `x`. -/
def log_likelihood (log : ℚ → ℚ) (theta : ℚ) (x : List ℕ) : Except FitError ℚ :=
  (factorial x).map fun fx =>
    (x.length : ℚ) * theta - (x.sum : ℚ) * log theta
      + (fx.map fun (k : ℕ) => log ((k : ℕ) : ℚ)).sum

/-- The value of `log_likelihood` when the factorial term evaluates
(nonempty `x`): the function the optimizer effectively minimizes once
the first evaluation has succeeded, since the error case depends only
on `x`, never on `theta`. -/
def log_likelihood_val (log : ℚ → ℚ) (theta : ℚ) (x : List ℕ) : ℚ :=
  (x.length : ℚ) * theta - (x.sum : ℚ) * log theta
    + (x.map fun k => log (k.factorial : ℚ)).sum

/-- The arguments of the `minimize` call in the MLE notebook:

    minimize(log_likelihood, np.array([3]), (counts), method='L-BFGS-B')

Initial guess 3, method L-BFGS-B, and no `bounds` argument, so scipy's
default `bounds=None` applies. -/
structure MinimizeCallSpec where
  x0 : ℚ
  method : String
  bounds : Option (Option ℚ × Option ℚ)
deriving DecidableEq

/-- The concrete call site `lik_model = minimize(...)` of the MLE
notebook. -/
def lik_model_call : MinimizeCallSpec :=
  { x0 := 3, method := "L-BFGS-B", bounds := none }

/-- `PoissonMLE.estimate`, the MLE notebook's pipeline:

    lik_model = minimize(log_likelihood, np.array([3]), (counts),
                         method='L-BFGS-B')
    theta = lik_model["x"][0]

The optimizer evaluates the objective at the initial guess first; an
exception raised there (empty `counts`) propagates out of `minimize`.
Otherwise every evaluation returns the pure objective value, and the
result dictionary is indexed at `"x"` only — the `success` flag is
never consulted. -/
def PoissonMLE.estimate (log : ℚ → ℚ) (opt : ScalarOptimizer) (counts : List ℕ) :
    Except FitError ℚ :=
  match log_likelihood log lik_model_call.x0 counts with
  | .error e => .error e
  | .ok _ =>
      .ok ((opt (fun theta => log_likelihood_val log theta counts) lik_model_call.x0).x)

/-! ## Helper lemmas -/

lemma dotProduct_self_nonneg_q {p : ℕ} (v : Fin p → ℚ) : 0 ≤ v ⬝ᵥ v := by
  simp only [Matrix.dotProduct]
  exact Finset.sum_nonneg fun i _ => mul_self_nonneg _

lemma dotProduct_self_pos_q {p : ℕ} (v : Fin p → ℚ) (hv : v ≠ 0) : 0 < v ⬝ᵥ v :=
  lt_of_le_of_ne (dotProduct_self_nonneg_q v)
    fun h => hv (Matrix.dotProduct_self_eq_zero.mp h.symm)

/-- The quadratic form of the ridge normal-equation matrix splits into
the penalty part and a sum of squares. -/
lemma ridge_quadratic_form {n p : ℕ} (X : Matrix (Fin n) (Fin p) ℚ) (l : ℚ)
    (v : Fin p → ℚ) :
    v ⬝ᵥ ((l • (1 : Matrix (Fin p) (Fin p) ℚ) + Xᵀ * X) *ᵥ v)
      = l * (v ⬝ᵥ v) + (X *ᵥ v) ⬝ᵥ (X *ᵥ v) := by
  rw [Matrix.add_mulVec, Matrix.dotProduct_add, Matrix.smul_mulVec_assoc,
    Matrix.one_mulVec, Matrix.dotProduct_smul, smul_eq_mul, ← Matrix.mulVec_mulVec,
    Matrix.dotProduct_mulVec, Matrix.vecMul_transpose]

/-- For `l > 0` the ridge normal-equation matrix `l•I + XᵀX` has
nonzero determinant: its quadratic form is positive definite. -/
lemma ridge_matrix_det_ne_zero {n p : ℕ} (X : Matrix (Fin n) (Fin p) ℚ) {l : ℚ}
    (hl : 0 < l) :
    (l • (1 : Matrix (Fin p) (Fin p) ℚ) + Xᵀ * X).det ≠ 0 := by
  intro hdet
  obtain ⟨v, hv, hCv⟩ := Matrix.exists_mulVec_eq_zero_iff.mpr hdet
  have hq := ridge_quadratic_form X l v
  rw [hCv, Matrix.dotProduct_zero] at hq
  have h1 : 0 < l * (v ⬝ᵥ v) := mul_pos hl (dotProduct_self_pos_q v hv)
  have h2 : 0 ≤ (X *ᵥ v) ⬝ᵥ (X *ᵥ v) := dotProduct_self_nonneg_q _
  linarith

/-- `RidgeRegression.fit` errs exactly when the normal-equation matrix
is singular, and the error is always `singularMatrix`. -/
lemma ridge_fit_error_iff {n p : ℕ} (X : Matrix (Fin n) (Fin p) ℚ) (y : Fin n → ℚ)
    (l : ℚ) (e : FitError) :
    RidgeRegression.fit X y l = .error e
      ↔ ((l • (1 : Matrix (Fin p) (Fin p) ℚ) + Xᵀ * X).det = 0 ∧ e = .singularMatrix) := by
  unfold RidgeRegression.fit
  split_ifs with h
  · constructor
    · intro he
      injection he with h2
      exact ⟨h, h2.symm⟩
    · rintro ⟨-, rfl⟩
      rfl
  · constructor
    · intro he
      exact he.elim
    · rintro ⟨hd, -⟩
      exact absurd hd h

/-! ## Claim theorems -/

/-- Claim C2: for every design matrix `X`, response `y` and `λ` with
`λI + XᵀX` nonsingular, the coefficient vector returned by
`RidgeRegression.fit` solves the regularized normal equations
`(λI + XᵀX) w = Xᵀ y` (exactly, in rational arithmetic). -/
theorem ridge_normal_equations {n p : ℕ} (X : Matrix (Fin n) (Fin p) ℚ)
    (y : Fin n → ℚ) (l : ℚ) (w : Fin p → ℚ)
    (h : RidgeRegression.fit X y l = .ok w) :
    (l • (1 : Matrix (Fin p) (Fin p) ℚ) + Xᵀ * X) *ᵥ w = Xᵀ *ᵥ y := by
  unfold RidgeRegression.fit at h
  by_cases hdet : (l • (1 : Matrix (Fin p) (Fin p) ℚ) + Xᵀ * X).det = 0
  · simp [hdet] at h
  · simp only [hdet, if_false, Except.ok.injEq] at h
    rw [← h, Matrix.mulVec_mulVec, Matrix.mul_smul, Matrix.mul_adjugate, smul_smul,
      inv_mul_cancel₀ hdet, one_smul, Matrix.one_mulVec]

/-- Witness for C2 at `X = [[1]]`, `y = [2]`, `λ = 1`: the fit returns
`w = [1]` and `(1·I + XᵀX) w = Xᵀ y` holds there. -/
theorem ridge_normal_equations_witness :
    ((1 : ℚ) • (1 : Matrix (Fin 1) (Fin 1) ℚ) + (!![1] : Matrix (Fin 1) (Fin 1) ℚ)ᵀ * !![1])
        *ᵥ ![1] = (!![1] : Matrix (Fin 1) (Fin 1) ℚ)ᵀ *ᵥ ![2] :=
  ridge_normal_equations !![1] ![2] 1 ![1] (by
    rw [RidgeRegression.fit]
    norm_num [Matrix.det_fin_one, Matrix.adjugate_fin_one, Matrix.mul_apply, Matrix.one_apply]
    funext i
    fin_cases i
    norm_num [Matrix.mulVec, Matrix.dotProduct, Matrix.one_apply, Matrix.mul_apply])

/-- Claim C4: for `λ ≥ 0`, `RidgeRegression.fit` fails (with the
singular-matrix error) exactly when `λ = 0` and `XᵀX` is singular; for
every `λ > 0` the matrix `λI + XᵀX` is invertible and the fit
succeeds. -/
theorem ridge_singular_error_characterization {n p : ℕ} (X : Matrix (Fin n) (Fin p) ℚ)
    (y : Fin n → ℚ) (l : ℚ) (hl : 0 ≤ l) :
    (RidgeRegression.fit X y l = .error .singularMatrix
        ↔ (l = 0 ∧ (Xᵀ * X).det = 0)) ∧
    (0 < l → ∃ w, RidgeRegression.fit X y l = .ok w) := by
  constructor
  · rw [ridge_fit_error_iff]
    rcases eq_or_lt_of_le hl with h0 | hpos
    · rw [← h0, zero_smul, zero_add]
      constructor
      · rintro ⟨hd, -⟩
        exact ⟨rfl, hd⟩
      · rintro ⟨-, hd⟩
        exact ⟨hd, rfl⟩
    · have hne := ridge_matrix_det_ne_zero X hpos
      constructor
      · rintro ⟨hd, -⟩
        exact absurd hd hne
      · rintro ⟨rfl, -⟩
        exact absurd hpos (lt_irrefl 0)
  · intro hpos
    have hne := ridge_matrix_det_ne_zero X hpos
    refine ⟨((l • (1 : Matrix (Fin p) (Fin p) ℚ) + Xᵀ * X).det⁻¹
          • (l • (1 : Matrix (Fin p) (Fin p) ℚ) + Xᵀ * X).adjugate) *ᵥ (Xᵀ *ᵥ y), ?_⟩
    unfold RidgeRegression.fit
    simp only [hne, if_false]

/-- Witness for C4 at `λ = 0`, `X = [[0]]`, `y = [0]`: `XᵀX` is
singular and the fit fails with the singular-matrix error. -/
theorem ridge_singular_error_characterization_witness :
    RidgeRegression.fit (!![0] : Matrix (Fin 1) (Fin 1) ℚ) ![0] 0 = .error .singularMatrix :=
  (ridge_singular_error_characterization !![0] ![0] 0 (le_refl 0)).1.mpr
    ⟨rfl, by norm_num [Matrix.det_fin_one, Matrix.mul_apply]⟩

/-- Claim C8: the ridge fit is deterministic.  With the numpy global
generator state made explicit, the returned coefficients do not depend
on it: two calls on identical `(X, y, l)` against any two generator
states return identical vectors, because the method body reads no
randomness. -/
theorem ridge_fit_deterministic {n p : ℕ} (s₁ s₂ : NpRandomState)
    (X : Matrix (Fin n) (Fin p) ℚ) (y : Fin n → ℚ) (l : ℚ) :
    (RidgeRegression.fitRng s₁ X y l).1 = (RidgeRegression.fitRng s₂ X y l).1 := rfl

/-- Claim C10: the lasso fit depends on hidden global RNG state.
There are two global-generator states delivering different initial
guesses `w0`, and an optimizer instance, for which two
`LassoRegression.fit` calls on identical `(X, y, λ)` return different
coefficient vectors. -/
theorem lasso_fit_depends_on_global_rng :
    ∃ (opt : Optimizer 1) (s₁ s₂ : NpRandomState) (X : Matrix (Fin 1) (Fin 1) ℚ)
      (y : Fin 1 → ℚ) (lam : ℚ),
      (npRandomRand 1 s₁).1 ≠ (npRandomRand 1 s₂).1 ∧
      (LassoRegression.fit opt s₁ X y lam).1 ≠ (LassoRegression.fit opt s₂ X y lam).1 := by
  refine ⟨fun _f w0 => ⟨w0, true, 0, 0⟩, ⟨fun _ => 0, 0⟩, ⟨fun _ => 1, 0⟩, !![1], ![0], 1, ?_, ?_⟩
  · intro h
    have h0 := congrFun h 0
    simp [npRandomRand] at h0
  · intro h
    have h0 := congrFun h 0
    simp [LassoRegression.fit, npRandomRand] at h0

/-- Counterexample to C3: negative `λ` is not rejected.  At
`X = [[1]]`, `y = [1]`, `λ = -2` the ridge fit returns the coefficient
vector `[-1]` instead of raising, and the lasso fit returns a
coefficient vector as well. -/
theorem negative_lambda_returns_cx :
    RidgeRegression.fit (!![1] : Matrix (Fin 1) (Fin 1) ℚ) ![1] (-2) = .ok ![-1] ∧
    (LassoRegression.fit (fun _f w0 => ⟨w0, true, 0, 0⟩) ⟨fun _ => 0, 0⟩
        (!![1] : Matrix (Fin 1) (Fin 1) ℚ) ![1] (-2)).1 = ![0] := by
  constructor
  · rw [RidgeRegression.fit]
    norm_num [Matrix.det_fin_one, Matrix.adjugate_fin_one, Matrix.mul_apply, Matrix.one_apply]
    funext i
    fin_cases i
    norm_num [Matrix.mulVec, Matrix.dotProduct, Matrix.one_apply, Matrix.mul_apply]
  · funext i
    fin_cases i
    rfl

/-- Claim C3 (amended): no validation of `λ` exists.  For every
negative `λ`, the ridge fit never reports an invalid argument (it can
only return coefficients or the singular-matrix error), and the lasso
fit unconditionally runs the optimizer and returns its solution
field. -/
theorem negative_lambda_accepted {n p : ℕ} (X : Matrix (Fin n) (Fin p) ℚ)
    (y : Fin n → ℚ) (l : ℚ) (hl : l < 0) :
    RidgeRegression.fit X y l ≠ .error .invalidArgument ∧
    ∀ (opt : Optimizer p) (s : NpRandomState),
      (LassoRegression.fit opt s X y l).1
        = (opt (LassoRegression.func X y l) (npRandomRand p s).1).x := by
  constructor
  · intro hc
    rcases (ridge_fit_error_iff X y l .invalidArgument).mp hc with ⟨-, he⟩
    exact FitError.noConfusion he
  · intro opt s
    rfl

/-- Witness for the amended C3 at `X = [[1]]`, `y = [1]`, `λ = -2`. -/
theorem negative_lambda_accepted_witness :
    RidgeRegression.fit (!![1] : Matrix (Fin 1) (Fin 1) ℚ) ![1] (-2)
      ≠ .error .invalidArgument :=
  (negative_lambda_accepted !![1] ![1] (-2) (by norm_num)).1

/-- Counterexample to C9: the fitted `w` is not immutable.  A first
fit on `(X=[[1]], y=[1], λ=0)` stores `w = [1]`; a second fit on the
same instance with `y=[2]` replaces it with `w = [2]`, and `predict`
afterwards uses `[2]`, not the first fit's `[1]`. -/
theorem ridge_w_replaced_cx :
    RidgeRegression.fitSelf (⟨none⟩ : RidgeRegressionState 1)
        (!![1] : Matrix (Fin 1) (Fin 1) ℚ) ![1] 0 = .ok ⟨some ![1]⟩ ∧
    RidgeRegression.fitSelf (⟨some ![1]⟩ : RidgeRegressionState 1)
        (!![1] : Matrix (Fin 1) (Fin 1) ℚ) ![2] 0 = .ok ⟨some ![2]⟩ ∧
    RidgeRegression.predictSelf (⟨some ![2]⟩ : RidgeRegressionState 1)
        (!![1] : Matrix (Fin 1) (Fin 1) ℚ) = some ![2] ∧
    (![(2 : ℚ)] ≠ ![(1 : ℚ)]) := by
  have h1 : RidgeRegression.fit (!![1] : Matrix (Fin 1) (Fin 1) ℚ) ![1] 0 = .ok ![1] := by
    rw [RidgeRegression.fit]
    norm_num [Matrix.det_fin_one, Matrix.adjugate_fin_one, Matrix.mul_apply, Matrix.one_apply]
    funext i
    fin_cases i
    norm_num [Matrix.mulVec, Matrix.dotProduct, Matrix.one_apply, Matrix.mul_apply]
  have h2 : RidgeRegression.fit (!![1] : Matrix (Fin 1) (Fin 1) ℚ) ![2] 0 = .ok ![2] := by
    rw [RidgeRegression.fit]
    norm_num [Matrix.det_fin_one, Matrix.adjugate_fin_one, Matrix.mul_apply, Matrix.one_apply]
    funext i
    fin_cases i
    norm_num [Matrix.mulVec, Matrix.dotProduct, Matrix.one_apply, Matrix.mul_apply]
  refine ⟨?_, ?_, ?_, ?_⟩
  · unfold RidgeRegression.fitSelf
    rw [h1]
    rfl
  · unfold RidgeRegression.fitSelf
    rw [h2]
    rfl
  · have hp : (!![1] : Matrix (Fin 1) (Fin 1) ℚ) *ᵥ ![2] = ![2] := by
      funext i
      fin_cases i
      norm_num [Matrix.mulVec, Matrix.dotProduct]
    unfold RidgeRegression.predictSelf
    simp [hp]
  · intro h
    have h0 := congrFun h 0
    norm_num at h0

/-- Claim C9 (amended): `fit` overwrites `self.w` unconditionally.  A
successful fit yields the same post-state from any prior instance
state; the stored `w` is the new fit's solution, and `predict` on the
post-state uses exactly that `w`. -/
theorem ridge_w_overwritten {n p : ℕ} (s₁ s₂ : RidgeRegressionState p)
    (X : Matrix (Fin n) (Fin p) ℚ) (y : Fin n → ℚ) (l : ℚ) (m : RidgeRegressionState p)
    (h : RidgeRegression.fitSelf s₁ X y l = .ok m) :
    RidgeRegression.fitSelf s₂ X y l = .ok m ∧
    ∃ w, RidgeRegression.fit X y l = .ok w ∧ m.w = some w ∧
      ∀ (q : ℕ) (Xq : Matrix (Fin q) (Fin p) ℚ),
        RidgeRegression.predictSelf m Xq = some (Xq *ᵥ w) := by
  unfold RidgeRegression.fitSelf at h
  cases hfit : RidgeRegression.fit X y l with
  | error e =>
      rw [hfit] at h
      exact absurd h (by simp [Except.map])
  | ok w =>
      rw [hfit] at h
      simp only [Except.map, Except.ok.injEq] at h
      subst h
      refine ⟨?_, w, rfl, rfl, fun q Xq => rfl⟩
      unfold RidgeRegression.fitSelf
      rw [hfit]
      rfl

/-- Witness for the amended C9: a fit on an instance already holding
`w = [5]` stores the new solution `[3]`. -/
theorem ridge_w_overwritten_witness :
    RidgeRegression.fitSelf (⟨some ![5]⟩ : RidgeRegressionState 1)
        (!![1] : Matrix (Fin 1) (Fin 1) ℚ) ![3] 0 = .ok ⟨some ![3]⟩ := by
  have hfit : RidgeRegression.fit (!![1] : Matrix (Fin 1) (Fin 1) ℚ) ![3] 0 = .ok ![3] := by
    rw [RidgeRegression.fit]
    norm_num [Matrix.det_fin_one, Matrix.adjugate_fin_one, Matrix.mul_apply, Matrix.one_apply]
    funext i
    fin_cases i
    norm_num [Matrix.mulVec, Matrix.dotProduct, Matrix.one_apply, Matrix.mul_apply]
  have h0 : RidgeRegression.fitSelf (⟨none⟩ : RidgeRegressionState 1)
      (!![1] : Matrix (Fin 1) (Fin 1) ℚ) ![3] 0 = .ok ⟨some ![3]⟩ := by
    unfold RidgeRegression.fitSelf
    rw [hfit]
    rfl
  exact (ridge_w_overwritten ⟨none⟩ ⟨some ![5]⟩ !![1] ![3] 0 ⟨some ![3]⟩ h0).1

/-- Claim C5: `PoissonMLE.estimate` on the empty count list raises
and returns no numeric estimate.  The very first objective evaluation
(at the initial guess) fails, because the vectorized factorial refuses
size-0 input — a `ValueError`, modelled `invalidArgument` — and the
exception propagates out of the pipeline for every logarithm and every
optimizer. -/
theorem mle_empty_raises (log : ℚ → ℚ) (opt : ScalarOptimizer) :
    PoissonMLE.estimate log opt [] = .error .invalidArgument := by
  unfold PoissonMLE.estimate
  simp [log_likelihood, factorial, Except.map]

/-- Counterexample to C6: a non-converged optimizer result
(`success = false`) is silently accepted.  The lasso fit returns the
iterate `[5]` and the MLE pipeline returns the iterate `7`, in both
cases with the success flag false and no error raised. -/
theorem convergence_flag_ignored_cx :
    (LassoRegression.fit (fun _f _w0 => ⟨![5], false, 42, 100⟩) ⟨fun _ => 0, 0⟩
        (!![1] : Matrix (Fin 1) (Fin 1) ℚ) ![0] 1).1 = ![5] ∧
    PoissonMLE.estimate (fun _ => 0) (fun _f _t0 => ⟨7, false, 42, 100⟩) [1] = .ok 7 :=
  ⟨rfl, rfl⟩

/-- Claim C6 (amended): both pipelines read only the optimizer
result's `x` field.  Two optimizers agreeing on `x` — whatever their
`success`, objective-value and iteration-count fields — produce
identical fit and estimate results, so non-convergence is never
surfaced. -/
theorem convergence_flag_not_consulted (n p : ℕ)
    (opt₁ opt₂ : Optimizer p) (so₁ so₂ : ScalarOptimizer)
    (hx : ∀ f w0, (opt₁ f w0).x = (opt₂ f w0).x)
    (hsx : ∀ f t0, (so₁ f t0).x = (so₂ f t0).x) :
    (∀ (s : NpRandomState) (X : Matrix (Fin n) (Fin p) ℚ) (y : Fin n → ℚ) (lam : ℚ),
        LassoRegression.fit opt₁ s X y lam = LassoRegression.fit opt₂ s X y lam) ∧
    (∀ (log : ℚ → ℚ) (counts : List ℕ),
        PoissonMLE.estimate log so₁ counts = PoissonMLE.estimate log so₂ counts) := by
  constructor
  · intro s X y lam
    simp only [LassoRegression.fit]
    rw [hx]
  · intro log counts
    cases hc : log_likelihood log lik_model_call.x0 counts with
    | error e => simp [PoissonMLE.estimate, hc]
    | ok v => simp [PoissonMLE.estimate, hc, hsx]

/-- Witness for the amended C6: two optimizers differing only in their
diagnostics fields give the same estimate on `counts = [1]`. -/
theorem convergence_flag_not_consulted_witness :
    PoissonMLE.estimate (fun _ => 0) (fun _f t0 => ⟨t0, false, 42, 100⟩) [1]
      = PoissonMLE.estimate (fun _ => 0) (fun _f t0 => ⟨t0, true, 0, 3⟩) [1] :=
  (convergence_flag_not_consulted 1 1
      (fun _f w0 => ⟨w0, false, 42, 100⟩) (fun _f w0 => ⟨w0, true, 0, 3⟩)
      (fun _f t0 => ⟨t0, false, 42, 100⟩) (fun _f t0 => ⟨t0, true, 0, 3⟩)
      (fun _f _w0 => rfl) (fun _f _t0 => rfl)).2 (fun _ => 0) [1]

/-- Counterexample to C7: the `minimize` call passes no bounds
(`bounds = None`), and the objective is not clamped at `θ ≤ 0`: its
value at `θ = -1` genuinely consults the logarithm at `-1` (two
logarithms differing only there give different objective values). -/
theorem mle_call_unbounded_cx :
    lik_model_call.bounds = none ∧
    log_likelihood (fun _ => 0) (-1) [2]
      ≠ log_likelihood (fun t => if t = -1 then 1 else 0) (-1) [2] := by
  refine ⟨rfl, ?_⟩
  simp only [log_likelihood, factorial, Except.map, ne_eq, Except.ok.injEq]
  norm_num [Nat.factorial, List.map_cons, List.map_nil, List.sum_cons, List.sum_nil]

/-- Claim C7 (amended): θ is not constrained to (0, ∞).  The
`minimize` call site passes `bounds = None`, and the negative
log-likelihood at any `θ ≤ 0` depends on the value of the logarithm at
that `θ`: it is evaluated there, not clamped. -/
theorem mle_objective_consults_log_at_nonpositive_theta (L₁ L₂ : ℚ → ℚ) (theta : ℚ)
    (hth : theta ≤ 0) (hne : L₁ theta ≠ L₂ theta)
    (hagree : ∀ t : ℚ, t ≠ theta → L₁ t = L₂ t) :
    lik_model_call.bounds = none ∧
    log_likelihood L₁ theta [1] ≠ log_likelihood L₂ theta [1] := by
  refine ⟨rfl, ?_⟩
  have h1 : L₁ 1 = L₂ 1 := hagree 1 (by intro hc; rw [← hc] at hth; linarith)
  have hval : ∀ L : ℚ → ℚ, log_likelihood L theta [1] = .ok (theta - L theta + L 1) := by
    intro L
    simp only [log_likelihood, factorial, Except.map, List.map_cons, List.map_nil,
      List.length_cons, List.length_nil, List.sum_cons, List.sum_nil,
      Nat.factorial_one, Nat.cast_one, Nat.cast_zero, Except.ok.injEq]
    push_cast
    ring
  rw [hval, hval, ne_eq, Except.ok.injEq]
  intro hc
  rw [h1] at hc
  exact hne (by linarith)

/-- Witness for the amended C7 at `θ = -1` with two concrete
logarithms differing only at `-1`. -/
theorem mle_objective_consults_log_witness :
    lik_model_call.bounds = none ∧
    log_likelihood (fun _ => 0) (-1) [1]
      ≠ log_likelihood (fun t => if t = -1 then 1 else 0) (-1) [1] :=
  mle_objective_consults_log_at_nonpositive_theta (fun _ => 0)
    (fun t => if t = -1 then 1 else 0) (-1) (by norm_num)
    (by norm_num) (fun t ht => by simp [ht])

/-- Claim C1: the penalty in the lasso objective is the linear sum
`λ·Σwᵢ`, not the L1 norm.  At `X = [[1]]`, `y = [0]`, `λ = 1`,
`w = [-1]` the code's objective evaluates to `0` (the negative
coefficient is rewarded), while the spec's L1 objective evaluates to
`2`. -/
theorem lasso_penalty_linear_sum_cx :
    LassoRegression.func (!![1] : Matrix (Fin 1) (Fin 1) ℚ) ![0] 1 ![-1] = 0 ∧
    lassoSpecObjective (!![1] : Matrix (Fin 1) (Fin 1) ℚ) ![0] 1 ![-1] = 2 := by
  constructor <;>
    norm_num [LassoRegression.func, lassoSpecObjective, Matrix.mulVec, Matrix.dotProduct,
      Fin.sum_univ_one]
